import Mathlib

/-!
Verification of the sentinel security agent core: a shallow embedding of the
ingestion, detection, persistence and IPC components, with theorems checking
the specification claims against the embedded code.

Sources embedded:
  - agent/sentinel/ipc.py               (IPCServer.process_request)
  - agent/sentinel/detector/pipeline.py (DetectionPipeline._get_parser)
  - agent/sentinel/detector/rules/engine.py (Rule, RuleEngine.evaluate)
  - agent/sentinel/store/models.py      (Threat)
  - agent/sentinel/store/database.py    (ThreatStore.get_threats)
  - agent/sentinel/collector/watcher.py (FileTailer, LogWatcher.add_path)
-/

namespace Sentinel

/-! ## JSON values and the IPC request processor (ipc.py) -/

/-- A JSON value, as produced by json.loads on a request line. Objects keep
their fields as an association list in insertion order. -/
inductive Json where
  | null : Json
  | bool (b : Bool) : Json
  | num (n : Int) : Json
  | str (s : String) : Json
  | arr (xs : List Json) : Json
  | obj (fields : List (String × Json)) : Json

/-- An IPC handler: takes the params value, returns a result or raises
(modelled as Except.error carrying str(e)). -/
abbrev Handler := Json → Except String Json

/-- Python membership test: method not in self.handlers. The handlers dict has
string keys, so a missing method key (None) or a non-string method is never a
member. Returns the handler when the method is a known string. -/
def handlerFor (handlers : List (String × Handler)) : Option Json → Option Handler
  | some (Json.str s) => handlers.lookup s
  | _ => none

/-- request.get ("params", \x7b\x7d) -/
def requestParams (request : List (String × Json)) : Json :=
  (request.lookup "params").getD (Json.obj [])

/-- request.get ("id"): None when absent, serialized as null. -/
def requestId (request : List (String × Json)) : Json :=
  (request.lookup "id").getD Json.null

/-- IPCServer.process_request (ipc.py lines 57-70): dispatch on the handler
table; unknown method yields the -32601 error, a raising handler yields the
-32000 error with the exception message; the request id is echoed in all
three responses. -/
def process_request (handlers : List (String × Handler))
    (request : List (String × Json)) : List (String × Json) :=
  match handlerFor handlers (request.lookup "method") with
  | none =>
      [("jsonrpc", Json.str "2.0"),
       ("error", Json.obj [("code", Json.num (-32601)),
                           ("message", Json.str "Method not found")]),
       ("id", requestId request)]
  | some h =>
      match h (requestParams request) with
      | Except.ok result =>
          [("jsonrpc", Json.str "2.0"), ("result", result),
           ("id", requestId request)]
      | Except.error msg =>
          [("jsonrpc", Json.str "2.0"),
           ("error", Json.obj [("code", Json.num (-32000)),
                               ("message", Json.str msg)]),
           ("id", requestId request)]

/-- The agent handler table (main.py SentinelAgent.__init__): keys "status"
and "threats". The handler bodies are stand-ins; claims about dispatch only
depend on the key set. -/
def agentHandlers : List (String × Handler) :=
  [("status", fun _ => Except.ok (Json.obj [("status", Json.str "running")])),
   ("threats", fun _ => Except.ok (Json.arr []))]

/-- The unknown-method request from the specification example. -/
def nopeRequest : List (String × Json) :=
  [("jsonrpc", Json.str "2.0"), ("method", Json.str "nope"),
   ("params", Json.obj []), ("id", Json.str "a")]

/-- A one-entry handler table whose handler always raises. -/
def boomHandlers : List (String × Handler) :=
  [("boom", fun _ => Except.error "kaboom")]

/-- A request addressed to the raising handler. -/
def boomRequest : List (String × Json) :=
  [("jsonrpc", Json.str "2.0"), ("method", Json.str "boom"),
   ("params", Json.obj []), ("id", Json.num 1)]

/-! ## Parser selection (pipeline.py) -/

/-- The closed set of concrete parsers held by DetectionPipeline. -/
inductive ParserKind where
  | nginx : ParserKind
  | ssh : ParserKind
  | generic : ParserKind
deriving DecidableEq

/-- Python substring membership on character lists: needle in hay. -/
def strContainsAux (needle : List Char) : List Char → Bool
  | [] => needle.isEmpty
  | c :: rest => needle.isPrefixOf (c :: rest) || strContainsAux needle rest

/-- Python substring membership: sub in s. -/
def strContains (s sub : String) : Bool :=
  strContainsAux sub.data s.data

/-- DetectionPipeline._get_parser (pipeline.py lines 59-65): path heuristic.
The source return type is Optional, but every branch returns a parser. -/
def getParser (path : String) : Option ParserKind :=
  if strContains path "nginx" then some ParserKind.nginx
  else if strContains path "auth.log" || strContains path "secure" then
    some ParserKind.ssh
  else some ParserKind.generic

/-! ## Rule engine (engine.py, models.py) -/

/-- The result of re.Pattern.search: only groupdict is consulted by the
engine. A group that did not participate maps to none. -/
structure ReMatch where
  groupdict : List (String × Option String)

/-- A compiled regex, abstracted by the single capability the engine uses:
search over the raw line, yielding an optional match. -/
structure Pattern where
  search : String → Option ReMatch

/-- Rule (engine.py lines 13-22). -/
structure Rule where
  id : String
  name : String
  description : String
  severity : String
  source : String
  patterns : List Pattern
  threshold : Int
  window : Int

/-- ParsedEvent (parser/base.py lines 5-11); the data bag maps extracted
field names to strings, timestamps are exact rationals. -/
structure ParsedEvent where
  source : String
  timestamp : Rat
  raw : String
  data : List (String × String)
  type : String

/-- Threat (models.py lines 6-23), with the dataclass defaults. The generated
id and created_at are supplied by the construction context below. -/
structure Threat where
  source : String
  severity : String
  type : String
  description : String
  attacker_ip : Option String := none
  attacker_geo : Option String := none
  raw_log : Option String := none
  risk_score : Rat := 0
  rule_id : Option String := none
  anomaly_score : Option Rat := none
  llm_explanation : Option String := none
  status : String := "open"
  id : String
  created_at : String
  resolved_at : Option String := none
  resolved_by : Option String := none
deriving DecidableEq

/-- Construction context for the Threat default factories: the 32 lowercase
hex characters of uuid4().hex, and datetime.now() rendered ISO-8601. -/
structure GenCtx where
  uuidHex : List Char
  nowIso : String

/-- The id default factory of models.py line 20: "THR-" plus the first 12
characters of uuid4().hex. -/
def threatId (g : GenCtx) : String :=
  "THR-" ++ String.mk (g.uuidHex.take 12)

/-- Python truthiness of an optional string: None and the empty string are
falsy. -/
def pyTruthy : Option String → Bool
  | none => false
  | some s => !s.isEmpty

/-- Python a or b on optional strings: a when truthy, else b. -/
def pyOr (a b : Option String) : Option String :=
  if pyTruthy a then a else b

/-- match.groupdict().get (k): none when the key is missing or the group did
not participate. -/
def groupGet (m : ReMatch) (k : String) : Option String :=
  (m.groupdict.lookup k).join

/-- The Threat literal built on a rule match (engine.py lines 84-97),
including the attacker_ip fallback chain of line 85. -/
def ruleMatchThreat (g : GenCtx) (rule : Rule) (event : ParsedEvent)
    (m : ReMatch) : Threat :=
  { source := event.source
    severity := rule.severity
    type := "rule_match"
    description := rule.description
    attacker_ip := pyOr (pyOr (pyOr (groupGet m "attacker_ip") (groupGet m "ip"))
      (event.data.lookup "ip")) (event.data.lookup "remote_addr")
    raw_log := some event.raw
    risk_score := 8/10
    rule_id := some rule.id
    status := "open"
    id := threatId g
    created_at := g.nowIso }

/-- The inner pattern loop of evaluate: first pattern whose search hits. -/
def firstMatch (patterns : List Pattern) (raw : String) : Option ReMatch :=
  match patterns with
  | [] => none
  | p :: rest =>
    match p.search raw with
    | some m => some m
    | none => firstMatch rest raw

/-- The rule loop of RuleEngine.evaluate (engine.py lines 73-98): skip rules
whose source is neither "any" nor the event source; return a Threat on the
first pattern hit; otherwise fall through to the next rule. -/
def evalRulesList (g : GenCtx) (event : ParsedEvent) : List Rule → Option Threat
  | [] => none
  | rule :: rest =>
    if rule.source ≠ "any" ∧ rule.source ≠ event.source then
      evalRulesList g event rest
    else
      match firstMatch rule.patterns event.raw with
      | some m => some (ruleMatchThreat g rule event m)
      | none => evalRulesList g event rest

/-- The mutable fields of RuleEngine (engine.py lines 48-49): the loaded rule
list and the sliding-window state map. -/
structure EngineState where
  rules : List Rule
  state : List (String × List Rat)

/-- RuleEngine.evaluate in explicit-state-passing form. The method body reads
self.rules and never assigns to self.rules or self.state, so the state
component is returned unchanged. -/
def evaluate (g : GenCtx) (s : EngineState) (event : ParsedEvent) :
    Option Threat × EngineState :=
  (evalRulesList g event s.rules, s)

/-- A compiled literal regex (no metacharacters, no groups): re.search finds
it exactly when it occurs as a substring. -/
def literalPattern (lit : String) : Pattern :=
  { search := fun s =>
      if strContains s lit then some { groupdict := [] } else none }

/-- The brute-force rule of the specification scenarios: threshold 3,
window 60, one literal pattern. -/
def sshBfRule : Rule :=
  { id := "ssh-bf"
    name := "SSH Brute Force"
    description := "Repeated failed SSH logins"
    severity := "HIGH"
    source := "ssh"
    patterns := [literalPattern "Failed password for"]
    threshold := 3
    window := 60 }

/-- A matching ssh auth event at a given timestamp. -/
def sshFailEvent (t : Rat) : ParsedEvent :=
  { source := "ssh"
    timestamp := t
    raw := "Failed password for invalid user root from 10.0.0.5 port 55555 ssh2"
    data := [("user", "root"), ("ip", "10.0.0.5")]
    type := "auth" }

/-- A concrete construction context. -/
def gen0 : GenCtx :=
  { uuidHex := List.replicate 32 'a', nowIso := "2020-10-10T13:55:36" }

/-- An engine holding the brute-force rule with an empty window state. -/
def engine0 : EngineState :=
  { rules := [sshBfRule], state := [] }

/-! ## Threat store query (database.py) -/

/-- The ORDER BY created_at DESC comparison: a sorts before b when the
created_at of b is at most that of a (string order on ISO-8601 text). -/
def createdDesc (a b : Threat) : Prop :=
  b.created_at ≤ a.created_at

instance : DecidableRel createdDesc :=
  fun a b => inferInstanceAs (Decidable (b.created_at ≤ a.created_at))

instance : IsTotal Threat createdDesc :=
  ⟨fun a b => le_total b.created_at a.created_at⟩

instance : IsTrans Threat createdDesc :=
  ⟨fun _ _ _ h1 h2 => le_trans h2 h1⟩

/-- ThreatStore.get_threats (database.py lines 110-115): SELECT * FROM
threats ORDER BY created_at DESC LIMIT n, over the stored rows. -/
def get_threats (rows : List Threat) (limit : Nat) : List Threat :=
  (List.insertionSort createdDesc rows).take limit

/-! ## Log collector (watcher.py) -/

/-- The mutable fields of FileTailer (watcher.py lines 21-27). The open
handle is a pair of the inode it refers to and its read position. -/
structure FileTailer where
  path : String
  start_at_end : Bool := true
  fd : Option (Nat × Nat) := none
  inode : Option Nat := none
  offset : Nat := 0
deriving DecidableEq

/-- FileTailer(path): the constructor defaults. -/
def FileTailer.new (path : String) : FileTailer :=
  { path := path }

/-- The watcher tailer map, in insertion order. -/
structure LogWatcher where
  tailers : List (String × FileTailer)
deriving DecidableEq

/-- LogWatcher.add_path (watcher.py lines 96-98): insert a fresh tailer only
when the path is not yet registered. -/
def add_path (w : LogWatcher) (path : String) : LogWatcher :=
  if (w.tailers.lookup path).isSome then w
  else { tailers := w.tailers ++ [(path, FileTailer.new path)] }

/-- A snapshot of the file system as one poll observes it: the inode
currently at each path, and the content of each inode. -/
structure FS where
  inodes : List (String × Nat)
  blobs : List (Nat × String)

/-- The content of an inode ("" when unknown). -/
def FS.blob (fs : FS) (ino : Nat) : String :=
  (fs.blobs.lookup ino).getD ""

/-- FileTailer.open (watcher.py lines 29-45): missing file leaves the tailer
idle; otherwise record the inode and seek to the end (default) or to the
start, recording the offset. -/
def tailerOpen (fs : FS) (t : FileTailer) : FileTailer :=
  match fs.inodes.lookup t.path with
  | none => t
  | some ino =>
    if t.start_at_end then
      { t with fd := some (ino, (fs.blob ino).length),
               inode := some ino, offset := (fs.blob ino).length }
    else
      { t with fd := some (ino, 0), inode := some ino, offset := 0 }

/-- The characters of one readline result: up to and including the first
newline, or the rest of the content at EOF without a trailing newline. -/
def readlineChars : List Char → List Char
  | [] => []
  | c :: rest => if c = '\n' then [c] else c :: readlineChars rest

/-- self._fd.readline() at a given position: "" at EOF. -/
def readline (blob : String) (pos : Nat) : String :=
  String.mk (readlineChars (blob.data.drop pos))

/-- The while-True loop of FileTailer.read (watcher.py lines 53-81), with
fuel for the finitely many iterations a poll performs. A non-empty line is
emitted stripped (both branches of the source yield line.strip()). At EOF the
path is stat-ed: a missing file breaks out; a changed inode closes and
reopens the handle and continues; otherwise the loop breaks. -/
def tailerReadAux (fs : FS) : Nat → FileTailer → List String →
    List String × FileTailer
  | 0, t, acc => (acc.reverse, t)
  | fuel + 1, t, acc =>
    match t.fd with
    | none => (acc.reverse, t)
    | some (ino, pos) =>
      let line := readline (fs.blob ino) pos
      if line.length ≠ 0 then
        tailerReadAux fs fuel { t with fd := some (ino, pos + line.length) }
          (line.trim :: acc)
      else
        match fs.inodes.lookup t.path with
        | none => (acc.reverse, t)
        | some cur =>
          if some cur ≠ t.inode then
            tailerReadAux fs fuel (tailerOpen fs { t with fd := none }) acc
          else (acc.reverse, t)

/-- FileTailer.read (watcher.py lines 47-81): open first when the handle is
missing, give up when opening failed, then run the drain loop. -/
def tailerRead (fs : FS) (fuel : Nat) (t : FileTailer) :
    List String × FileTailer :=
  match t.fd with
  | none =>
    let t1 := tailerOpen fs t
    match t1.fd with
    | none => ([], t1)
    | some _ => tailerReadAux fs fuel t1 []
  | some _ => tailerReadAux fs fuel t []

/-- The file system right after mv x.log x.log.1; touch x.log;
echo hello >> x.log: the path now names inode 2 whose content is "hello",
while the old inode 1 still holds the rotated content. -/
def fsRotated : FS :=
  { inodes := [("/tmp/x.log", 2)]
    blobs := [(1, "old line\n"), (2, "hello\n")] }

/-- The tailer positioned at EOF of the old file (inode 1, offset 9) before
the rotation is observed. -/
def tailerAtEofOld : FileTailer :=
  { path := "/tmp/x.log", start_at_end := true, fd := some (1, 9),
    inode := some 1, offset := 9 }

/-- A lowercase hexadecimal digit, the alphabet of uuid4().hex. -/
def isLowerHex (c : Char) : Bool :=
  c.isDigit || ('a' ≤ c && c ≤ 'f')

/-- The Threat the engine builds for the brute-force rule on the matching
event (the literal pattern captures no groups). -/
def threat0 : Threat :=
  ruleMatchThreat gen0 sshBfRule (sshFailEvent 0) { groupdict := [] }

/-! ## Helper lemmas -/

theorem lookup_cons_eqn {β : Type} (k k1 : String) (v : β)
    (rest : List (String × β)) :
    ((k1, v) :: rest).lookup k = cond (k == k1) (some v) (rest.lookup k) := by
  cases hk : (k == k1) <;> simp [List.lookup, hk]

theorem lookup_append_of_eq_none {β : Type} (k : String)
    (l1 l2 : List (String × β)) (h : l1.lookup k = none) :
    (l1 ++ l2).lookup k = l2.lookup k := by
  induction l1 with
  | nil => rfl
  | cons a rest ih =>
    obtain ⟨k1, v⟩ := a
    rw [lookup_cons_eqn] at h
    rw [List.cons_append, lookup_cons_eqn]
    cases hk : (k == k1)
    · rw [hk] at h
      simp only [cond_false] at h ⊢
      exact ih h
    · rw [hk] at h
      simp at h

theorem lookup_eq_none_iff {β : Type} (k : String) (l : List (String × β)) :
    l.lookup k = none ↔ k ∉ l.map Prod.fst := by
  induction l with
  | nil => simp
  | cons a rest ih =>
    obtain ⟨k1, v⟩ := a
    rw [lookup_cons_eqn]
    cases hk : (k == k1)
    · have hne : k ≠ k1 := by
        intro he
        rw [he] at hk
        simp at hk
      simp [hne, ih]
    · have heq : k = k1 := by
        have := hk
        simpa using this
      simp [heq]

theorem evalRulesList_eq_some (g : GenCtx) (e : ParsedEvent) :
    ∀ (rules : List Rule) (t : Threat), evalRulesList g e rules = some t →
      ∃ rule ∈ rules, ∃ m : ReMatch, t = ruleMatchThreat g rule e m := by
  intro rules
  induction rules with
  | nil =>
    intro t h
    simp [evalRulesList] at h
  | cons rule rest ih =>
    intro t h
    by_cases hs : rule.source ≠ "any" ∧ rule.source ≠ e.source
    · rw [evalRulesList, if_pos hs] at h
      obtain ⟨r, hr, m, hm⟩ := ih t h
      exact ⟨r, List.mem_cons_of_mem _ hr, m, hm⟩
    · rw [evalRulesList, if_neg hs] at h
      cases hfm : firstMatch rule.patterns e.raw with
      | none =>
        rw [hfm] at h
        obtain ⟨r, hr, m, hm⟩ := ih t h
        exact ⟨r, List.mem_cons_of_mem _ hr, m, hm⟩
      | some m =>
        rw [hfm] at h
        exact ⟨rule, List.mem_cons_self _ _, m, (Option.some.inj h).symm⟩

/-! ## Claim theorems -/

/-- C1: the sliding-window claim against the code. The source evaluate skips
aggregation entirely: with the threshold-3 window-60 rule and a single first
matching event, it already returns a Threat, and the window state map is
never consulted or updated — where the claim allows a Threat only when the
window count reaches the threshold. -/
theorem evaluate_ignores_threshold :
    (evaluate gen0 engine0 (sshFailEvent 0)).1 = some threat0 ∧
    (evaluate gen0 engine0 (sshFailEvent 0)).2.state = [] ∧
    sshBfRule.threshold = 3 ∧ sshBfRule.window = 60 :=
  ⟨rfl, rfl, rfl, rfl⟩

/-- C2: the rotation claim against the code. After mv; touch; echo hello the
next poll yields no line at all: the reopen performed by the rotation branch
still has start_at_end set, so it seeks to the end of the new file (offset 6,
past the pending "hello" line), although the new inode is recorded. -/
theorem tailer_rotation_drops_new_line :
    tailerRead fsRotated 8 tailerAtEofOld =
      ([], { path := "/tmp/x.log", start_at_end := true, fd := some (2, 6),
             inode := some 2, offset := 6 }) ∧
    readline (fsRotated.blob 2) 0 = "hello\n" :=
  ⟨rfl, rfl⟩

/-- C3: every Threat returned by RuleEngine.evaluate carries the fields of
the rule that matched: severity, type "rule_match", description, rule_id
(present), risk_score 0.8 within the unit interval, status "open", and an id
of the shape THR- followed by 12 lowercase hex characters. -/
theorem evaluate_threat_invariants (g : GenCtx) (s : EngineState)
    (e : ParsedEvent) (t : Threat)
    (hlen : g.uuidHex.length = 32)
    (hhex : ∀ c ∈ g.uuidHex, isLowerHex c = true)
    (ht : (evaluate g s e).1 = some t) :
    ∃ rule ∈ s.rules,
      t.severity = rule.severity ∧
      t.type = "rule_match" ∧
      t.description = rule.description ∧
      t.rule_id = some rule.id ∧
      t.risk_score = 8/10 ∧ 0 ≤ t.risk_score ∧ t.risk_score ≤ 1 ∧
      t.status = "open" ∧
      ∃ hex12 : List Char, t.id = "THR-" ++ String.mk hex12 ∧
        hex12.length = 12 ∧ ∀ c ∈ hex12, isLowerHex c = true := by
  obtain ⟨rule, hr, m, hm⟩ := evalRulesList_eq_some g e s.rules t ht
  subst hm
  refine ⟨rule, hr, rfl, rfl, rfl, rfl, rfl, by norm_num [ruleMatchThreat],
    by norm_num [ruleMatchThreat], rfl, g.uuidHex.take 12, rfl, ?_, ?_⟩
  · rw [List.length_take, hlen]
    decide
  · intro c hc
    exact hhex c (List.take_subset 12 g.uuidHex hc)

/-- C3 witness: the theorem applied to the concrete brute-force engine,
event and generation context. -/
theorem evaluate_threat_invariants_witness :
    ∃ rule ∈ engine0.rules,
      threat0.severity = rule.severity ∧
      threat0.type = "rule_match" ∧
      threat0.description = rule.description ∧
      threat0.rule_id = some rule.id ∧
      threat0.risk_score = 8/10 ∧ 0 ≤ threat0.risk_score ∧
      threat0.risk_score ≤ 1 ∧
      threat0.status = "open" ∧
      ∃ hex12 : List Char, threat0.id = "THR-" ++ String.mk hex12 ∧
        hex12.length = 12 ∧ ∀ c ∈ hex12, isLowerHex c = true :=
  evaluate_threat_invariants gen0 engine0 (sshFailEvent 0) threat0
    (by decide) (by decide) rfl

/-- C4: get_threats returns at most limit rows, ordered by created_at
descending (non-increasing from first to last). -/
theorem get_threats_bounded_sorted (rows : List Threat) (limit : Nat) :
    (get_threats rows limit).length ≤ limit ∧
    List.Sorted createdDesc (get_threats rows limit) := by
  constructor
  · exact List.length_take_le limit (List.insertionSort createdDesc rows)
  · exact List.Pairwise.sublist (List.take_sublist limit _)
      (List.sorted_insertionSort createdDesc rows)

/-- C5: an unknown method yields the -32601 Method-not-found error with the
request id echoed. -/
theorem process_request_unknown_method (handlers : List (String × Handler))
    (request : List (String × Json))
    (hfind : handlerFor handlers (request.lookup "method") = none) :
    process_request handlers request =
      [("jsonrpc", Json.str "2.0"),
       ("error", Json.obj [("code", Json.num (-32601)),
                           ("message", Json.str "Method not found")]),
       ("id", requestId request)] := by
  unfold process_request
  rw [hfind]

/-- C5 witness: the nope request against the agent handler table yields
exactly the error line of the specification example. -/
theorem process_request_unknown_method_witness :
    process_request agentHandlers nopeRequest =
      [("jsonrpc", Json.str "2.0"),
       ("error", Json.obj [("code", Json.num (-32601)),
                           ("message", Json.str "Method not found")]),
       ("id", Json.str "a")] :=
  process_request_unknown_method agentHandlers nopeRequest rfl

/-- C6: a raising handler is surfaced as the -32000 error carrying the
exception message, with the request id echoed, rather than propagating. -/
theorem process_request_handler_error_surfaced
    (handlers : List (String × Handler)) (request : List (String × Json))
    (hnd : Handler) (msg : String)
    (hfind : handlerFor handlers (request.lookup "method") = some hnd)
    (hraise : hnd (requestParams request) = Except.error msg) :
    process_request handlers request =
      [("jsonrpc", Json.str "2.0"),
       ("error", Json.obj [("code", Json.num (-32000)),
                           ("message", Json.str msg)]),
       ("id", requestId request)] := by
  simp only [process_request, hfind, hraise]

/-- C6 witness: the always-raising handler produces the -32000 error with
its message and the numeric request id echoed. -/
theorem process_request_handler_error_surfaced_witness :
    process_request boomHandlers boomRequest =
      [("jsonrpc", Json.str "2.0"),
       ("error", Json.obj [("code", Json.num (-32000)),
                           ("message", Json.str "kaboom")]),
       ("id", Json.num 1)] :=
  process_request_handler_error_surfaced boomHandlers boomRequest
    (fun _ => Except.error "kaboom") "kaboom" rfl rfl

/-- C7: parser selection is total and follows the path heuristic: nginx
substring wins, then auth.log or secure selects ssh, else generic. -/
theorem getParser_heuristic (path : String) :
    (getParser path).isSome = true ∧
    (strContains path "nginx" = true → getParser path = some ParserKind.nginx) ∧
    (strContains path "nginx" = false →
      (strContains path "auth.log" || strContains path "secure") = true →
      getParser path = some ParserKind.ssh) ∧
    (strContains path "nginx" = false →
      (strContains path "auth.log" || strContains path "secure") = false →
      getParser path = some ParserKind.generic) := by
  unfold getParser
  cases h1 : strContains path "nginx" <;>
    cases h2 : (strContains path "auth.log" || strContains path "secure") <;>
      simp [h1, h2]

/-- C7 witness: a path containing nginx selects the nginx parser. -/
theorem getParser_heuristic_witness :
    getParser "/var/log/nginx/access.log" = some ParserKind.nginx :=
  (getParser_heuristic "/var/log/nginx/access.log").2.1 rfl

/-- C8: add_path is idempotent. A second add_path of the same path is the
identity, the path ends up with exactly one registered tailer, and an
already-registered tailer is not replaced. -/
theorem add_path_idempotent (w : LogWatcher) (p : String)
    (hkeys : (w.tailers.map Prod.fst).Nodup) :
    add_path (add_path w p) p = add_path w p ∧
    ((add_path w p).tailers.map Prod.fst).count p = 1 ∧
    (∀ t, w.tailers.lookup p = some t →
      (add_path w p).tailers.lookup p = some t) := by
  by_cases hp : (w.tailers.lookup p).isSome
  · have h1 : add_path w p = w := by
      unfold add_path
      rw [if_pos hp]
    have hmem : p ∈ w.tailers.map Prod.fst := by
      by_contra hno
      rw [← lookup_eq_none_iff] at hno
      rw [hno] at hp
      simp at hp
    refine ⟨by rw [h1, h1], ?_, ?_⟩
    · rw [h1]
      exact List.count_eq_one_of_mem hkeys hmem
    · intro t hT
      rw [h1]
      exact hT
  · have hnone : w.tailers.lookup p = none :=
      Option.not_isSome_iff_eq_none.mp hp
    have h1 : add_path w p =
        { tailers := w.tailers ++ [(p, FileTailer.new p)] } := by
      unfold add_path
      rw [if_neg hp]
    have hlook : (w.tailers ++ [(p, FileTailer.new p)]).lookup p =
        some (FileTailer.new p) := by
      rw [lookup_append_of_eq_none p _ _ hnone, lookup_cons_eqn]
      simp
    refine ⟨?_, ?_, ?_⟩
    · rw [h1]
      unfold add_path
      rw [hlook]
      simp
    · rw [h1]
      have hni : p ∉ w.tailers.map Prod.fst :=
        (lookup_eq_none_iff p w.tailers).mp hnone
      simp [List.count_append, List.count_eq_zero.mpr hni]
    · intro t hT
      rw [hT] at hnone
      simp at hnone

/-- C8 witness: adding the same path twice to an empty watcher registers
exactly one tailer and the second call is the identity. -/
theorem add_path_idempotent_witness :
    add_path (add_path { tailers := [] } "/var/log/auth.log")
        "/var/log/auth.log" =
      add_path { tailers := [] } "/var/log/auth.log" ∧
    ((add_path { tailers := [] } "/var/log/auth.log").tailers.map
        Prod.fst).count "/var/log/auth.log" = 1 :=
  ⟨(add_path_idempotent { tailers := [] } "/var/log/auth.log" (by simp)).1,
   (add_path_idempotent { tailers := [] } "/var/log/auth.log" (by simp)).2.1⟩

/-- C9: evaluate is read-only on the engine: the rule list and the
sliding-window state map are returned unchanged, and re-running evaluate on
the resulting state with the same event yields the same result. -/
theorem evaluate_preserves_state (g : GenCtx) (s : EngineState)
    (e : ParsedEvent) :
    (evaluate g s e).2 = s ∧
    (evaluate g s e).2.rules = s.rules ∧
    (evaluate g s e).2.state = s.state ∧
    (evaluate g ((evaluate g s e).2) e).1 = (evaluate g s e).1 :=
  ⟨rfl, rfl, rfl, rfl⟩

/-- C10: process_request is total on arbitrary request dictionaries: the
response always carries jsonrpc 2.0, the request id (null when absent), and
exactly one of result or error; a request with no method key gets the
-32601 error. -/
theorem process_request_total (handlers : List (String × Handler))
    (request : List (String × Json)) :
    (process_request handlers request).lookup "jsonrpc" =
      some (Json.str "2.0") ∧
    (process_request handlers request).lookup "id" =
      some (requestId request) ∧
    ((((process_request handlers request).lookup "result").isSome = true ∧
      (process_request handlers request).lookup "error" = none) ∨
     ((process_request handlers request).lookup "result" = none ∧
      (((process_request handlers request).lookup "error").isSome = true))) ∧
    (request.lookup "method" = none →
      (process_request handlers request).lookup "error" =
        some (Json.obj [("code", Json.num (-32601)),
                        ("message", Json.str "Method not found")])) := by
  rcases hfind : handlerFor handlers (request.lookup "method") with _ | hnd
  · unfold process_request
    rw [hfind]
    exact ⟨rfl, rfl, Or.inr ⟨rfl, rfl⟩, fun _ => rfl⟩
  · have hm : request.lookup "method" ≠ none := by
      intro he
      rw [he] at hfind
      simp [handlerFor] at hfind
    rcases hres : hnd (requestParams request) with msg | r
    · simp only [process_request, hfind, hres]
      exact ⟨rfl, rfl, Or.inr ⟨rfl, rfl⟩, fun h => absurd h hm⟩
    · simp only [process_request, hfind, hres]
      exact ⟨rfl, rfl, Or.inl ⟨rfl, rfl⟩, fun h => absurd h hm⟩

/-- C10 witness: the empty request against the empty handler table: the id
is echoed as null and the -32601 error is produced. -/
theorem process_request_total_witness :
    (process_request ([] : List (String × Handler))
        ([] : List (String × Json))).lookup "error" =
      some (Json.obj [("code", Json.num (-32601)),
                      ("message", Json.str "Method not found")]) ∧
    (process_request ([] : List (String × Handler))
        ([] : List (String × Json))).lookup "id" = some Json.null :=
  ⟨(process_request_total [] []).2.2.2 rfl,
   (process_request_total [] []).2.1⟩

end Sentinel
